import Mathlib

/-
  Verification of the Nexus AI chat client's routing/normalization layer
  (src/services/geminiService.ts together with src/types.ts).

  The remote generative-AI service is modelled as an oracle: a function from
  the request the code builds to either a response value or a thrown failure
  (`Except.error`), so that each handler and the dispatch layer become pure
  functions of the oracle.  `Date.now()` is modelled by an explicit `now`
  parameter.  JavaScript truthiness on optional strings (undefined and ""
  are falsy) is modelled by `jsTruthy`, and the JS `x || d` idiom by
  `jsOrElse` / `jsOrStr`.
-/

set_option linter.unusedVariables false

namespace Nexus

/-- Message roles from types.ts. -/
inductive Role where
  | user
  | model
  | system
deriving DecidableEq

/-- Message payload kinds from types.ts. -/
inductive MsgType where
  | text
  | image
  | audio
  | code
  | error
deriving DecidableEq

/-- A web-grounding citation entry from types.ts metadata. -/
structure WebSource where
  uri : String
  title : String
deriving DecidableEq

/-- The optional metadata bag on a message, from types.ts. -/
structure MessageMetadata where
  imageUrl : Option String := none
  audioData : Option String := none
  codeLanguage : Option String := none
  thinking : Option Bool := none
  webSources : Option (List WebSource) := none
deriving DecidableEq

/-- A full chat message, from types.ts. -/
structure Message where
  id : String
  role : Role
  content : String
  type : MsgType
  timestamp : Nat
  metadata : Option MessageMetadata := none
deriving DecidableEq

/-- The shape every handler returns (the fields of Partial Message that the
source always sets: role, type, content, timestamp, and sometimes metadata). -/
structure ResponseMessage where
  role : Role
  type : MsgType
  content : String
  timestamp : Nat
  metadata : Option MessageMetadata := none
deriving DecidableEq

/-- The closed mode enumeration from types.ts. -/
inductive AgentMode where
  | ORCHESTRATOR
  | CODER
  | ARTIST
  | SPEAKER
  | ANALYST
deriving DecidableEq

/-- Inline binary payload inside an outgoing request part. -/
structure ReqInlineData where
  mimeType : String
  data : Option String
deriving DecidableEq

/-- One part of an outgoing request body. -/
structure ReqPart where
  text : Option String := none
  inlineData : Option ReqInlineData := none
deriving DecidableEq

/-- The `contents` field of a request: either a bare string or a parts list. -/
inductive ReqContents where
  | text (s : String)
  | parts (ps : List ReqPart)
deriving DecidableEq

/-- The request configuration the source passes to generateContent. -/
structure ReqConfig where
  tools : Bool := false
  systemInstruction : Option String := none
  thinkingBudget : Option Nat := none
  responseModalities : List String := []
  voiceName : Option String := none
deriving DecidableEq

/-- One outbound call to `ai.models.generateContent`. -/
structure Request where
  model : String
  contents : ReqContents
  config : Option ReqConfig := none
deriving DecidableEq

/-- `chunk.web` of a grounding chunk in the remote response. -/
structure WebInfo where
  uri : Option String := none
  title : Option String := none
deriving DecidableEq

/-- One grounding chunk in the remote response. -/
structure GroundingChunk where
  web : Option WebInfo := none
deriving DecidableEq

/-- `groundingMetadata` of a response candidate. -/
structure GroundingMetadata where
  groundingChunks : Option (List GroundingChunk) := none
deriving DecidableEq

/-- Inline binary payload inside a response part. -/
structure RespInlineData where
  data : Option String := none
deriving DecidableEq

/-- One part of a response candidate's content. -/
structure RespPart where
  text : Option String := none
  inlineData : Option RespInlineData := none
deriving DecidableEq

/-- The `content` of a response candidate. -/
structure RespContent where
  parts : Option (List RespPart) := none
deriving DecidableEq

/-- One response candidate. -/
structure Candidate where
  content : Option RespContent := none
  groundingMetadata : Option GroundingMetadata := none
deriving DecidableEq

/-- The named arguments a structured action request can carry. -/
structure FCArgs where
  prompt : String := ""
  text : String := ""
  task_description : String := ""
deriving DecidableEq

/-- A structured action request (function call) emitted by the remote model. -/
structure FunctionCall where
  name : String
  args : FCArgs
deriving DecidableEq

/-- The remote response shape the source consumes. -/
structure GenAIResponse where
  functionCalls : Option (List FunctionCall) := none
  text : Option String := none
  candidates : Option (List Candidate) := none
deriving DecidableEq

/-- The remote service: one generateContent call, which may throw. -/
def Oracle : Type := Request → Except String GenAIResponse

/-- JavaScript truthiness of an optional string: undefined and "" are falsy. -/
def jsTruthy : Option String → Bool
  | none => false
  | some s => decide (s ≠ "")

/-- JavaScript `x || d` where x is an optional string. -/
def jsOrElse (o : Option String) (d : String) : String :=
  if jsTruthy o then o.getD d else d

/-- JavaScript `x || d` where x is a plain string. -/
def jsOrStr (s d : String) : String :=
  if s = "" then d else s

/-- JavaScript template interpolation of a possibly-undefined string. -/
def jsShow : Option String → String
  | none => "undefined"
  | some s => s

/-- JavaScript `s.split(",")` at the character level: split at every comma
(single-character separator semantics, so "" splits to [""]). -/
def splitCommaChars : List Char → List (List Char)
  | [] => [[]]
  | c :: cs =>
    if c = ',' then
      [] :: splitCommaChars cs
    else
      match splitCommaChars cs with
      | [] => [[c]]
      | h :: t => (c :: h) :: t

/-- JavaScript `s.split(",")`. -/
def jsSplitComma (s : String) : List String :=
  (splitCommaChars s.data).map (fun l => String.mk l)

/-- JavaScript `s.split(",")[1]`: the second comma-separated segment, if any. -/
def jsSplitSecond (s : String) : Option String :=
  (jsSplitComma s).get? 1

/-- The orchestrator's routing system instruction (apostrophes escaped). -/
def orchestratorSystemInstruction : String :=
  "You are Nexus, an intelligent orchestration hub.\nYour job is to ROUTE the user\x27s request to the correct specialized agent using the available tools.\n- If the user wants an image, call \x27dispatch_create_image\x27.\n- If the user wants code, call \x27dispatch_write_code\x27.\n- If the user wants speech, call \x27dispatch_speak_text\x27.\n- If the user asks for real-time information, news, or facts, use the built-in Google Search.\n- Otherwise, answer the query directly using your own knowledge."

/-- The decision request runOrchestrator issues: flash model, orchestrator
tools (three dispatch declarations plus googleSearch), routing instruction. -/
def orchestratorRequest (prompt : String) : Request :=
  { model := "gemini-2.5-flash"
    contents := ReqContents.text prompt
    config := some { tools := true, systemInstruction := some orchestratorSystemInstruction } }

/-- The request generateCode issues: pro model with thinking budget; note it
is built from the prompt only, never from the history. -/
def codeRequest (prompt : String) : Request :=
  { model := "gemini-3-pro-preview"
    contents := ReqContents.text prompt
    config := some { systemInstruction := some "You are an expert Senior Software Engineer. Write clean, efficient, and well-documented code.", thinkingBudget := some 2048 } }

/-- The request generateImage issues. -/
def imageRequest (prompt : String) : Request :=
  { model := "gemini-2.5-flash-image"
    contents := ReqContents.text prompt
    config := none }

/-- The request generateSpeech issues: TTS model, AUDIO modality, Kore voice. -/
def speechRequest (prompt : String) : Request :=
  { model := "gemini-2.5-flash-preview-tts"
    contents := ReqContents.parts [{ text := some prompt }]
    config := some { responseModalities := ["AUDIO"], voiceName := some "Kore" } }

/-- The parts list analyzeContent builds: the text part, preceded (unshift)
by an inline-data part holding `imageBase64.split(",")[1]` when a truthy
attachment is present. -/
def analyzeParts (prompt : String) (imageBase64 : Option String) : List ReqPart :=
  if jsTruthy imageBase64 then
    { inlineData := some { mimeType := "image/png", data := jsSplitSecond (imageBase64.getD "") } }
      :: [{ text := some prompt }]
  else
    [{ text := some prompt }]

/-- The request analyzeContent issues. -/
def analyzeRequest (prompt : String) (imageBase64 : Option String) : Request :=
  { model := "gemini-2.5-flash"
    contents := ReqContents.parts (analyzeParts prompt imageBase64)
    config := some { systemInstruction := some "You are a visual data analyst. Analyze the provided image/data and the text request." } }

/-- `response.candidates?.[0]?.content?.parts` (optional chaining). -/
def firstParts (r : GenAIResponse) : Option (List RespPart) :=
  match r.candidates with
  | some (c :: _) =>
    match c.content with
    | some ct => ct.parts
    | none => none
  | _ => none

/-- `response.candidates?.[0]?.groundingMetadata?.groundingChunks`. -/
def firstGroundingChunks (r : GenAIResponse) : Option (List GroundingChunk) :=
  match r.candidates with
  | some (c :: _) =>
    match c.groundingMetadata with
    | some g => g.groundingChunks
    | none => none
  | _ => none

/-- One step of the loop over parts in generateImage: a part with inlineData
overwrites imageUrl with the data URI; otherwise a truthy text part
overwrites the caption. -/
def imageScanStep (acc : String × String) (part : RespPart) : String × String :=
  match part.inlineData with
  | some d => ("data:image/png;base64," ++ jsShow d.data, acc.2)
  | none => if jsTruthy part.text then (acc.1, part.text.getD "") else acc

/-- The loop over parts in generateImage: (imageUrl, text), starting ("", ""). -/
def imageScan (ps : List RespPart) : String × String :=
  ps.foldl imageScanStep ("", "")

/-- Whether any part of the first candidate carries an inline payload. -/
def hasInlinePart (r : GenAIResponse) : Bool :=
  ((firstParts r).getD []).any (fun p => p.inlineData.isSome)

/-- The imageUrl the generateImage loop leaves behind ("" when never set). -/
def imageUrlOf (r : GenAIResponse) : String :=
  (imageScan ((firstParts r).getD [])).1

/-- The caption text the generateImage loop extracts. -/
def captionOf (r : GenAIResponse) : String :=
  (imageScan ((firstParts r).getD [])).2

/-- generateImage: one image-model call; degrade to a type=text apology when
no inline image payload came back, else a type=image message whose content is
the caption or the synthesized fallback. -/
def generateImage (oracle : Oracle) (now : Nat) (prompt : String) :
    Except String ResponseMessage :=
  match oracle (imageRequest prompt) with
  | Except.error e => Except.error e
  | Except.ok response =>
    if imageUrlOf response = "" then
      Except.ok
        { role := Role.model, type := MsgType.text
          content := "I couldn\x27t generate an image. Please try a different prompt."
          timestamp := now }
    else
      Except.ok
        { role := Role.model, type := MsgType.image
          content := jsOrStr (captionOf response) ("Generated: " ++ prompt)
          timestamp := now
          metadata := some { imageUrl := some (imageUrlOf response) } }

/-- `parts?.[0]?.inlineData?.data` of a speech response. -/
def speechAudioData (r : GenAIResponse) : Option String :=
  (((firstParts r).bind (fun ps => ps.head?)).bind (fun p => p.inlineData)).bind
    (fun d => d.data)

/-- generateSpeech: one TTS call; throws when the audio payload is missing
(or falsy), else a type=audio message carrying the payload. -/
def generateSpeech (oracle : Oracle) (now : Nat) (prompt : String) :
    Except String ResponseMessage :=
  match oracle (speechRequest prompt) with
  | Except.error e => Except.error e
  | Except.ok response =>
    if jsTruthy (speechAudioData response) then
      Except.ok
        { role := Role.model, type := MsgType.audio
          content := "Audio output generated."
          timestamp := now
          metadata := some { audioData := speechAudioData response } }
    else
      Except.error "Audio data missing in response"

/-- generateCode: one pro-model call built from the prompt alone; the history
parameter is accepted but never used. -/
def generateCode (oracle : Oracle) (now : Nat) (prompt : String)
    (history : List Message) : Except String ResponseMessage :=
  match oracle (codeRequest prompt) with
  | Except.error e => Except.error e
  | Except.ok response =>
    Except.ok
      { role := Role.model, type := MsgType.code
        content := jsOrElse response.text "// No code generated"
        timestamp := now
        metadata := some { codeLanguage := some "typescript" } }

/-- analyzeContent: one vision call whose parts carry the prompt and, when a
truthy attachment is present, the attachment split at commas (segment 1). -/
def analyzeContent (oracle : Oracle) (now : Nat) (prompt : String)
    (history : List Message) (imageBase64 : Option String) :
    Except String ResponseMessage :=
  match oracle (analyzeRequest prompt imageBase64) with
  | Except.error e => Except.error e
  | Except.ok response =>
    Except.ok
      { role := Role.model, type := MsgType.text
        content := jsOrElse response.text "Analysis complete."
        timestamp := now }

/-- One step of the forEach/push loop collecting web sources: a chunk with a
web entry pushes its (uri, title), defaulting a falsy uri to "" and a falsy
title to "Source". -/
def collectStep (acc : List WebSource) (chunk : GroundingChunk) : List WebSource :=
  match chunk.web with
  | some w => acc ++ [{ uri := jsOrElse w.uri "", title := jsOrElse w.title "Source" }]
  | none => acc

/-- The forEach/push loop collecting web sources from grounding chunks. -/
def collectWebSources (chunks : List GroundingChunk) : List WebSource :=
  chunks.foldl collectStep []

/-- The free-text branch of runOrchestrator: placeholder for empty text, web
sources attached only when the collected list is nonempty. -/
def orchestratorTextMessage (response : GenAIResponse) (now : Nat) : ResponseMessage :=
  let sources := collectWebSources ((firstGroundingChunks response).getD [])
  { role := Role.model, type := MsgType.text
    content := jsOrElse response.text "I processed that request."
    timestamp := now
    metadata := some { webSources := if sources.length > 0 then some sources else none } }

/-- runOrchestrator: a truthy attachment short-circuits to analyzeContent;
otherwise one decision call, dispatch on the first structured action when its
name matches, and free-text handling (with grounding) otherwise. -/
def runOrchestrator (oracle : Oracle) (now : Nat) (prompt : String)
    (history : List Message) (imageAttachment : Option String) :
    Except String ResponseMessage :=
  if jsTruthy imageAttachment then
    analyzeContent oracle now prompt history imageAttachment
  else
    match oracle (orchestratorRequest prompt) with
    | Except.error e => Except.error e
    | Except.ok response =>
      match response.functionCalls with
      | some (call :: _) =>
        if call.name = "dispatch_create_image" then
          generateImage oracle now call.args.prompt
        else if call.name = "dispatch_speak_text" then
          generateSpeech oracle now call.args.text
        else if call.name = "dispatch_write_code" then
          generateCode oracle now call.args.task_description history
        else
          Except.ok (orchestratorTextMessage response now)
      | _ => Except.ok (orchestratorTextMessage response now)

/-- The try-block of generateResponse: the mode switch before the catch. -/
def dispatchResult (oracle : Oracle) (now : Nat) (prompt : String)
    (mode : AgentMode) (history : List Message) (imageAttachment : Option String) :
    Except String ResponseMessage :=
  match mode with
  | AgentMode.ORCHESTRATOR => runOrchestrator oracle now prompt history imageAttachment
  | AgentMode.ARTIST => generateImage oracle now prompt
  | AgentMode.SPEAKER => generateSpeech oracle now prompt
  | AgentMode.CODER => generateCode oracle now prompt history
  | AgentMode.ANALYST => analyzeContent oracle now prompt history imageAttachment

/-- The catch-block of generateResponse: a thrown failure becomes a
type=error message carrying the failure description. -/
def handleError (now : Nat) (result : Except String ResponseMessage) : ResponseMessage :=
  match result with
  | Except.ok m => m
  | Except.error e =>
    { role := Role.model, type := MsgType.error
      content := "System Error: " ++ jsOrStr e "Unknown error occurred."
      timestamp := now }

/-- generateResponse: the exported entry point, a total function. -/
def generateResponse (oracle : Oracle) (now : Nat) (prompt : String)
    (mode : AgentMode) (history : List Message) (imageAttachment : Option String) :
    ResponseMessage :=
  handleError now (dispatchResult oracle now prompt mode history imageAttachment)

/-- Whether a request carries the orchestrator tool set, i.e. is the
intent-detection decision request; no specialized handler issues one. -/
def isRouterRequest (r : Request) : Bool :=
  match r.config with
  | some c => c.tools
  | none => false

/-- Modelled from the spec claim wording for comparison: "the portion after
the first comma" of a string, undefined when the string has no comma. -/
def portionAfterFirstComma (s : String) : Option String :=
  match List.dropWhile (fun c => c ≠ ',') s.data with
  | [] => none
  | _ :: t => some (String.mk t)

/-!  Theorems settling the claims.  -/

/-- C1: In automatic mode with no attachment, when the decision response
carries one or more structured action requests, only the first is acted upon
(the remaining actions are universally quantified and absent from the
conclusion), each dispatch name maps to its handler with only the declared
argument forwarded unmodified, and the conversation history is forwarded to
the code handler but not to the image or speech handlers (it is absent from
their right-hand sides while arbitrary on the left). -/
theorem orchestrator_first_action_dispatch
    (oracle : Oracle) (now : Nat) (prompt : String) (history : List Message)
    (r : GenAIResponse) (call : FunctionCall) (rest : List FunctionCall)
    (hres : oracle (orchestratorRequest prompt) = Except.ok r)
    (hfc : r.functionCalls = some (call :: rest)) :
    (call.name = "dispatch_create_image" →
      runOrchestrator oracle now prompt history none =
        generateImage oracle now call.args.prompt) ∧
    (call.name = "dispatch_speak_text" →
      runOrchestrator oracle now prompt history none =
        generateSpeech oracle now call.args.text) ∧
    (call.name = "dispatch_write_code" →
      runOrchestrator oracle now prompt history none =
        generateCode oracle now call.args.task_description history) := by
  unfold runOrchestrator
  rw [hres]
  refine ⟨fun hn => ?_, fun hn => ?_, fun hn => ?_⟩ <;>
    simp [jsTruthy, hfc, hn]

/-- A decision response carrying two actions, used to witness C1. -/
def responseC1 : GenAIResponse :=
  { functionCalls := some
      [ { name := "dispatch_create_image", args := { prompt := "a red fox" } },
        { name := "dispatch_speak_text", args := { text := "ignored" } } ] }

/-- An oracle answering every request with responseC1. -/
def oracleC1 : Oracle := fun _ => Except.ok responseC1

/-- Witness for C1: a concrete decision response listing two actions routes
to the image handler with only the first action's prompt argument. -/
theorem orchestrator_first_action_dispatch_witness :
    runOrchestrator oracleC1 0 "draw a red fox" [] none =
      generateImage oracleC1 0 "a red fox" :=
  (orchestrator_first_action_dispatch oracleC1 0 "draw a red fox" []
      responseC1
      { name := "dispatch_create_image", args := { prompt := "a red fox" } }
      [ { name := "dispatch_speak_text", args := { text := "ignored" } } ]
      rfl rfl).1 rfl

/-- The image handler consults the oracle only at its own (non-router)
request: two oracles agreeing away from router requests give equal results. -/
theorem generateImage_oracle_agree (o1 o2 : Oracle) (now : Nat) (prompt : String)
    (h : ∀ req, isRouterRequest req = false → o1 req = o2 req) :
    generateImage o1 now prompt = generateImage o2 now prompt := by
  unfold generateImage
  rw [h (imageRequest prompt) rfl]

/-- The speech handler consults the oracle only at its own request. -/
theorem generateSpeech_oracle_agree (o1 o2 : Oracle) (now : Nat) (prompt : String)
    (h : ∀ req, isRouterRequest req = false → o1 req = o2 req) :
    generateSpeech o1 now prompt = generateSpeech o2 now prompt := by
  unfold generateSpeech
  rw [h (speechRequest prompt) rfl]

/-- The code handler consults the oracle only at its own request. -/
theorem generateCode_oracle_agree (o1 o2 : Oracle) (now : Nat) (prompt : String)
    (history : List Message)
    (h : ∀ req, isRouterRequest req = false → o1 req = o2 req) :
    generateCode o1 now prompt history = generateCode o2 now prompt history := by
  unfold generateCode
  rw [h (codeRequest prompt) rfl]

/-- The vision-analysis handler consults the oracle only at its own request. -/
theorem analyzeContent_oracle_agree (o1 o2 : Oracle) (now : Nat) (prompt : String)
    (history : List Message) (att : Option String)
    (h : ∀ req, isRouterRequest req = false → o1 req = o2 req) :
    analyzeContent o1 now prompt history att = analyzeContent o2 now prompt history att := by
  unfold analyzeContent
  rw [h (analyzeRequest prompt att) rfl]

/-- C2: In every manual (non-orchestrator) mode, generateResponse calls
exactly the handler bound to the mode (its result is the handler's result
passed through the single catch conversion, and equals the handler's result
whenever the handler succeeds), and it never issues the Router's decision
request: changing the oracle's answers to router requests alone never
changes the result. -/
theorem manual_mode_direct_dispatch
    (o1 o2 : Oracle) (now : Nat) (prompt : String) (history : List Message)
    (att : Option String)
    (hagree : ∀ req, isRouterRequest req = false → o1 req = o2 req) :
    generateResponse o1 now prompt AgentMode.ARTIST history att =
      handleError now (generateImage o1 now prompt) ∧
    generateResponse o1 now prompt AgentMode.SPEAKER history att =
      handleError now (generateSpeech o1 now prompt) ∧
    generateResponse o1 now prompt AgentMode.CODER history att =
      handleError now (generateCode o1 now prompt history) ∧
    generateResponse o1 now prompt AgentMode.ANALYST history att =
      handleError now (analyzeContent o1 now prompt history att) ∧
    (∀ m, generateImage o1 now prompt = Except.ok m →
      generateResponse o1 now prompt AgentMode.ARTIST history att = m) ∧
    (∀ m, generateSpeech o1 now prompt = Except.ok m →
      generateResponse o1 now prompt AgentMode.SPEAKER history att = m) ∧
    (∀ m, generateCode o1 now prompt history = Except.ok m →
      generateResponse o1 now prompt AgentMode.CODER history att = m) ∧
    (∀ m, analyzeContent o1 now prompt history att = Except.ok m →
      generateResponse o1 now prompt AgentMode.ANALYST history att = m) ∧
    generateResponse o1 now prompt AgentMode.ARTIST history att =
      generateResponse o2 now prompt AgentMode.ARTIST history att ∧
    generateResponse o1 now prompt AgentMode.SPEAKER history att =
      generateResponse o2 now prompt AgentMode.SPEAKER history att ∧
    generateResponse o1 now prompt AgentMode.CODER history att =
      generateResponse o2 now prompt AgentMode.CODER history att ∧
    generateResponse o1 now prompt AgentMode.ANALYST history att =
      generateResponse o2 now prompt AgentMode.ANALYST history att := by
  refine ⟨rfl, rfl, rfl, rfl, ?_, ?_, ?_, ?_, ?_, ?_, ?_, ?_⟩
  · intro m hm
    simp [generateResponse, dispatchResult, hm, handleError]
  · intro m hm
    simp [generateResponse, dispatchResult, hm, handleError]
  · intro m hm
    simp [generateResponse, dispatchResult, hm, handleError]
  · intro m hm
    simp [generateResponse, dispatchResult, hm, handleError]
  · unfold generateResponse dispatchResult
    rw [generateImage_oracle_agree o1 o2 now prompt hagree]
  · unfold generateResponse dispatchResult
    rw [generateSpeech_oracle_agree o1 o2 now prompt hagree]
  · unfold generateResponse dispatchResult
    rw [generateCode_oracle_agree o1 o2 now prompt history hagree]
  · unfold generateResponse dispatchResult
    rw [analyzeContent_oracle_agree o1 o2 now prompt history att hagree]

/-- An oracle that always fails, used to witness C2. -/
def oracleC2 : Oracle := fun _ => Except.error "network failure"

/-- Witness for C2: artist mode at a concrete oracle equals the image
handler's result passed through the catch conversion. -/
theorem manual_mode_direct_dispatch_witness :
    generateResponse oracleC2 0 "a red fox" AgentMode.ARTIST [] none =
      handleError 0 (generateImage oracleC2 0 "a red fox") :=
  (manual_mode_direct_dispatch oracleC2 oracleC2 0 "a red fox" [] none
      (fun _ _ => rfl)).1

/-- C3: In automatic mode, whenever an image attachment is present (a
nonempty attachment string), the orchestrator delegates directly to the
vision-analysis handler with the prompt, history, and attachment, for every
text prompt; and it never issues the intent-detection decision request:
changing the oracle's answers to router requests alone never changes the
result. -/
theorem orchestrator_attachment_goes_to_analysis
    (o1 o2 : Oracle) (now : Nat) (prompt : String) (history : List Message)
    (s : String) (hs : s ≠ "")
    (hagree : ∀ req, isRouterRequest req = false → o1 req = o2 req) :
    runOrchestrator o1 now prompt history (some s) =
      analyzeContent o1 now prompt history (some s) ∧
    runOrchestrator o1 now prompt history (some s) =
      runOrchestrator o2 now prompt history (some s) := by
  have ht : jsTruthy (some s) = true := by simp [jsTruthy, hs]
  constructor
  · unfold runOrchestrator
    rw [ht]
    simp
  · unfold runOrchestrator
    rw [ht]
    simp only [if_true]
    exact analyzeContent_oracle_agree o1 o2 now prompt history (some s) hagree

/-- An oracle answering every request with an empty response, used to
witness C3. -/
def oracleC3 : Oracle := fun _ => Except.ok {}

/-- Witness for C3 at a concrete attachment and prompt that asks for
something other than analysis. -/
theorem orchestrator_attachment_goes_to_analysis_witness :
    runOrchestrator oracleC3 0 "draw me a fox instead" []
        (some "data:image/png;base64,QUJD") =
      analyzeContent oracleC3 0 "draw me a fox instead" []
        (some "data:image/png;base64,QUJD") :=
  (orchestrator_attachment_goes_to_analysis oracleC3 oracleC3 0
      "draw me a fox instead" [] "data:image/png;base64,QUJD"
      (by decide) (fun _ _ => rfl)).1

/-- C4: Every failure thrown during handling is caught by generateResponse
and converted into a type=error message whose content carries the failure
description (with the fixed fallback when the description is empty); in
particular, a speaker-mode turn whose remote response lacks a truthy audio
payload resolves to the type=error message for "Audio data missing in
response". -/
theorem thrown_failure_becomes_error_message
    (oracle : Oracle) (now : Nat) (prompt : String) (mode : AgentMode)
    (history : List Message) (att : Option String) (e : String)
    (r : GenAIResponse) :
    (dispatchResult oracle now prompt mode history att = Except.error e →
      generateResponse oracle now prompt mode history att =
        { role := Role.model, type := MsgType.error
          content := "System Error: " ++ jsOrStr e "Unknown error occurred."
          timestamp := now }) ∧
    (oracle (speechRequest prompt) = Except.ok r →
      jsTruthy (speechAudioData r) = false →
      generateResponse oracle now prompt AgentMode.SPEAKER history att =
        { role := Role.model, type := MsgType.error
          content := "System Error: Audio data missing in response"
          timestamp := now }) := by
  constructor
  · intro h
    simp [generateResponse, h, handleError]
  · intro hres hfalsy
    have hsp : generateSpeech oracle now prompt =
        Except.error "Audio data missing in response" := by
      unfold generateSpeech
      rw [hres]
      simp [hfalsy]
    have hcontent :
        "System Error: " ++
            jsOrStr "Audio data missing in response" "Unknown error occurred." =
          "System Error: Audio data missing in response" := rfl
    simp [generateResponse, dispatchResult, hsp, handleError, hcontent]

/-- A response with no candidates at all (so no audio payload), used to
witness C4. -/
def oracleC4 : Oracle := fun _ => Except.ok {}

/-- Witness for C4: speaker mode with a response carrying no audio payload
resolves to the type=error message. -/
theorem thrown_failure_becomes_error_message_witness :
    generateResponse oracleC4 0 "hello" AgentMode.SPEAKER [] none =
      { role := Role.model, type := MsgType.error
        content := "System Error: Audio data missing in response"
        timestamp := 0 } :=
  (thrown_failure_becomes_error_message oracleC4 0 "hello" AgentMode.SPEAKER
      [] none "Audio data missing in response" {}).2 rfl rfl

/-- A data URI built from the fixed image prefix is never the empty string,
so the generateImage fallback test cannot fire once a payload was seen. -/
theorem dataUri_ne_empty (tail : String) :
    "data:image/png;base64," ++ tail ≠ "" := by
  intro h
  have h2 := congrArg String.length h
  simp [String.length_append] at h2
  exact absurd h2.1 (by decide)

/-- When no part carries inlineData, the scan never touches imageUrl. -/
theorem imageScan_fst_of_no_inline (ps : List RespPart) (acc : String × String)
    (h : ∀ p ∈ ps, p.inlineData = none) :
    (List.foldl imageScanStep acc ps).1 = acc.1 := by
  induction ps generalizing acc with
  | nil => rfl
  | cons p ps ih =>
    have hp : p.inlineData = none := h p (by simp)
    have hrest : ∀ q ∈ ps, q.inlineData = none := fun q hq => h q (by simp [hq])
    show (List.foldl imageScanStep (imageScanStep acc p) ps).1 = acc.1
    rw [ih _ hrest]
    simp only [imageScanStep, hp]
    split <;> rfl

/-- When some part carries inlineData, the scan leaves imageUrl holding a
string that begins with the fixed image-data prefix. -/
theorem imageScan_fst_of_inline (ps : List RespPart) (acc : String × String)
    (h : ∃ p ∈ ps, p.inlineData.isSome = true) :
    ∃ tail, (List.foldl imageScanStep acc ps).1 = "data:image/png;base64," ++ tail := by
  induction ps generalizing acc with
  | nil => simp at h
  | cons p ps ih =>
    by_cases hps : ∃ q ∈ ps, q.inlineData.isSome = true
    · exact ih (imageScanStep acc p) hps
    · cases hp : p.inlineData with
      | none =>
        exfalso
        obtain ⟨q, hq, hqs⟩ := h
        rcases List.mem_cons.mp hq with hqp | hqm
        · rw [hqp, hp] at hqs
          simp at hqs
        · exact hps ⟨q, hqm, hqs⟩
      | some d =>
        have hstep : imageScanStep acc p =
            ("data:image/png;base64," ++ jsShow d.data, acc.2) := by
          unfold imageScanStep
          rw [hp]
        have hrest : ∀ q ∈ ps, q.inlineData = none := by
          intro q hq
          rcases hqq : q.inlineData with _ | d2
          · rfl
          · exact absurd ⟨q, hq, by rw [hqq]; rfl⟩ hps
        show ∃ tail, (List.foldl imageScanStep (imageScanStep acc p) ps).1 = _
        rw [imageScan_fst_of_no_inline ps _ hrest, hstep]
        exact ⟨jsShow d.data, rfl⟩

/-- C5: When the image handler's remote response carries an inline image
payload, the result is a type=image message whose metadata.imageUrl is a
data URI beginning with the image-data prefix and whose content is the
accompanying caption or the synthesized fallback caption; when it carries no
inline payload, the result degrades to a type=text failure explanation, not
a thrown failure and not type=error. -/
theorem image_handler_payload_policy
    (oracle : Oracle) (now : Nat) (prompt : String) (r : GenAIResponse)
    (hres : oracle (imageRequest prompt) = Except.ok r) :
    (hasInlinePart r = true →
      ∃ tail, generateImage oracle now prompt = Except.ok
        { role := Role.model, type := MsgType.image
          content := jsOrStr (captionOf r) ("Generated: " ++ prompt)
          timestamp := now
          metadata := some { imageUrl := some ("data:image/png;base64," ++ tail) } }) ∧
    (hasInlinePart r = false →
      generateImage oracle now prompt = Except.ok
        { role := Role.model, type := MsgType.text
          content := "I couldn\x27t generate an image. Please try a different prompt."
          timestamp := now }) := by
  constructor
  · intro hin
    have hex : ∃ p ∈ (firstParts r).getD [], p.inlineData.isSome = true := by
      unfold hasInlinePart at hin
      exact List.any_eq_true.mp hin
    obtain ⟨tail, htail⟩ :=
      imageScan_fst_of_inline ((firstParts r).getD []) ("", "") hex
    have hurl : imageUrlOf r = "data:image/png;base64," ++ tail := htail
    refine ⟨tail, ?_⟩
    unfold generateImage
    rw [hres]
    simp only [hurl]
    rw [if_neg (dataUri_ne_empty tail)]
  · intro hin
    have hall : ∀ p ∈ (firstParts r).getD [], p.inlineData = none := by
      unfold hasInlinePart at hin
      intro p hp
      have hfalse := List.any_eq_false.mp hin p hp
      rcases hq : p.inlineData with _ | d
      · rfl
      · rw [hq] at hfalse
        simp at hfalse
    have hurl : imageUrlOf r = "" :=
      imageScan_fst_of_no_inline ((firstParts r).getD []) ("", "") hall
    unfold generateImage
    rw [hres]
    simp only [hurl]
    simp

/-- Parts carrying an inline image payload and a caption, used to witness C5. -/
def partsC5 : List RespPart :=
  [ { inlineData := some { data := some "QUJD" } },
    { text := some "A red fox." } ]

/-- A response whose first candidate carries an inline image payload and a
caption, used to witness C5. -/
def responseC5 : GenAIResponse :=
  { candidates := some [ { content := some { parts := some partsC5 } } ] }

/-- An oracle answering every request with responseC5. -/
def oracleC5 : Oracle := fun _ => Except.ok responseC5

/-- Witness for C5 at a concrete response carrying an inline image payload. -/
theorem image_handler_payload_policy_witness :
    ∃ tail, generateImage oracleC5 0 "a red fox" = Except.ok
      { role := Role.model, type := MsgType.image
        content := jsOrStr (captionOf responseC5) ("Generated: " ++ "a red fox")
        timestamp := 0
        metadata := some { imageUrl := some ("data:image/png;base64," ++ tail) } } :=
  (image_handler_payload_policy oracleC5 0 "a red fox" responseC5 rfl).1 (by decide)

/-- The normalized view of one grounding chunk: its (uri, title) pair with
the falsy-value defaults applied, or nothing when the chunk has no web entry. -/
def webView (chunk : GroundingChunk) : Option WebSource :=
  chunk.web.map (fun w => { uri := jsOrElse w.uri "", title := jsOrElse w.title "Source" })

/-- The push loop over grounding chunks appends exactly the normalized views,
in citation order. -/
theorem collect_foldl_eq_append_filterMap (chunks : List GroundingChunk)
    (acc : List WebSource) :
    List.foldl collectStep acc chunks = acc ++ chunks.filterMap webView := by
  induction chunks generalizing acc with
  | nil => simp
  | cons c cs ih =>
    show List.foldl collectStep (collectStep acc c) cs = _
    rw [ih]
    cases hc : c.web with
    | none => simp [collectStep, webView, hc]
    | some w => simp [collectStep, webView, hc]

/-- C6: When the decision response carries grounding citations and no action
request, the citations' (uri, title) pairs are collected into an ordered
list (the filterMap of the normalized view, preserving citation order), title
defaulting to "Source" when absent or empty; in particular the singleton
citation with uri "https://a" and empty title normalizes to title "Source";
and the orchestrator's free-text message carries exactly that list. -/
theorem grounding_citations_collected
    (oracle : Oracle) (now : Nat) (prompt : String) (history : List Message)
    (r : GenAIResponse) (chunks : List GroundingChunk)
    (hres : oracle (orchestratorRequest prompt) = Except.ok r)
    (hfc : r.functionCalls = none)
    (hch : firstGroundingChunks r = some chunks) :
    collectWebSources chunks = chunks.filterMap webView ∧
    collectWebSources [ { web := some { uri := some "https://a", title := some "" } } ] =
      [ { uri := "https://a", title := "Source" } ] ∧
    runOrchestrator oracle now prompt history none = Except.ok
      { role := Role.model, type := MsgType.text
        content := jsOrElse r.text "I processed that request."
        timestamp := now
        metadata := some { webSources := if (collectWebSources chunks).length > 0 then some (collectWebSources chunks) else none } } := by
  refine ⟨?_, by decide, ?_⟩
  · exact (collect_foldl_eq_append_filterMap chunks []).trans (List.nil_append _)
  · unfold runOrchestrator
    rw [hres]
    simp [jsTruthy, hfc, orchestratorTextMessage, hch, collectWebSources]

/-- The one-citation chunk list with an empty title, used to witness C6. -/
def chunksC6 : List GroundingChunk :=
  [ { web := some { uri := some "https://a", title := some "" } } ]

/-- A decision response with one citation whose title is empty, used to
witness C6. -/
def responseC6 : GenAIResponse :=
  { text := some "Answer."
    candidates := some [ { groundingMetadata := some { groundingChunks := some chunksC6 } } ] }

/-- An oracle answering every request with responseC6. -/
def oracleC6 : Oracle := fun _ => Except.ok responseC6

/-- Witness for C6: the concrete citation list with an empty title
normalizes to title "Source". -/
theorem grounding_citations_collected_witness :
    collectWebSources [ { web := some { uri := some "https://a", title := some "" } } ] =
      [ { uri := "https://a", title := "Source" } ] :=
  (grounding_citations_collected oracleC6 0 "what is new" [] responseC6
      chunksC6 rfl rfl (by decide)).2.1

/-- C7: When the router answers with free text and the collected citation
list is empty, the returned message's webSources metadata field is absent
(none), never an empty list. -/
theorem empty_citations_field_absent
    (oracle : Oracle) (now : Nat) (prompt : String) (history : List Message)
    (r : GenAIResponse)
    (hres : oracle (orchestratorRequest prompt) = Except.ok r)
    (hfc : r.functionCalls = none)
    (hempty : collectWebSources ((firstGroundingChunks r).getD []) = []) :
    ∃ m, runOrchestrator oracle now prompt history none = Except.ok m ∧
      m.type = MsgType.text ∧
      m.metadata = some { webSources := none } := by
  refine ⟨orchestratorTextMessage r now, ?_, rfl, ?_⟩
  · unfold runOrchestrator
    rw [hres]
    simp [jsTruthy, hfc]
  · simp [orchestratorTextMessage, hempty]

/-- A decision response with free text and no grounding at all, used to
witness C7. -/
def responseC7 : GenAIResponse := { text := some "Just an answer." }

/-- An oracle answering every request with responseC7. -/
def oracleC7 : Oracle := fun _ => Except.ok responseC7

/-- Witness for C7 at a concrete free-text response with no citations. -/
theorem empty_citations_field_absent_witness :
    ∃ m, runOrchestrator oracleC7 0 "hello there" [] none = Except.ok m ∧
      m.type = MsgType.text ∧
      m.metadata = some { webSources := none } :=
  empty_citations_field_absent oracleC7 0 "hello there" [] responseC7
    rfl rfl rfl

/-- The split of a comma-free character list is that list alone. -/
theorem splitCommaChars_no_comma (l : List Char) (h : ∀ c ∈ l, c ≠ ',') :
    splitCommaChars l = [l] := by
  induction l with
  | nil => rfl
  | cons c cs ih =>
    have hc : c ≠ ',' := h c (by simp)
    have hcs : ∀ x ∈ cs, x ≠ ',' := fun x hx => h x (by simp [hx])
    simp only [splitCommaChars]
    rw [if_neg hc, ih hcs]

/-- Splitting past a comma-free block yields that block and the split of the
remainder. -/
theorem splitCommaChars_append (pc : List Char) (hp : ∀ c ∈ pc, c ≠ ',')
    (rest : List Char) :
    splitCommaChars (pc ++ ',' :: rest) = pc :: splitCommaChars rest := by
  induction pc with
  | nil =>
    show splitCommaChars (',' :: rest) = [] :: splitCommaChars rest
    simp only [splitCommaChars]
    rw [if_pos trivial]
  | cons c pc2 ih =>
    have hc : c ≠ ',' := hp c (by simp)
    have hp2 : ∀ x ∈ pc2, x ≠ ',' := fun x hx => hp x (by simp [hx])
    show splitCommaChars (c :: (pc2 ++ ',' :: rest)) = (c :: pc2) :: splitCommaChars rest
    simp only [splitCommaChars]
    rw [if_neg hc, ih hp2]

/-- Dropping a comma-free block stops exactly at the comma. -/
theorem dropWhile_ne_comma (pc : List Char) (hp : ∀ c ∈ pc, c ≠ ',')
    (rest : List Char) :
    List.dropWhile (fun c => c ≠ ',') (pc ++ ',' :: rest) = ',' :: rest := by
  induction pc with
  | nil => rw [List.nil_append, List.dropWhile_cons, if_neg (by simp)]
  | cons c pc2 ih =>
    have hc : c ≠ ',' := hp c (by simp)
    have hp2 : ∀ x ∈ pc2, x ≠ ',' := fun x hx => hp x (by simp [hx])
    rw [List.cons_append, List.dropWhile_cons, if_pos (by simp [hc])]
    exact ih hp2

/-- C8: For a call to the vision-analysis handler with an image attachment
present (a data URI: a comma-free prefix, a comma, and a comma-free
payload), the inline payload placed in the remote request is the attachment
stripped of its data-URI prefix — the portion after the first comma, as both
the code's split-and-index and the spec's stripping wording produce — and
the result is a type=text message whose content is the analysis text. -/
theorem analyst_strips_data_uri
    (oracle : Oracle) (now : Nat) (prompt : String) (history : List Message)
    (s : String) (pc dc : List Char) (r : GenAIResponse)
    (hp : ∀ c ∈ pc, c ≠ ',')
    (hd : ∀ c ∈ dc, c ≠ ',')
    (hsd : s.data = pc ++ ',' :: dc)
    (hs : s ≠ "")
    (hres : oracle (analyzeRequest prompt (some s)) = Except.ok r) :
    jsSplitSecond s = some (String.mk dc) ∧
    portionAfterFirstComma s = some (String.mk dc) ∧
    analyzeParts prompt (some s) =
      [ { inlineData := some { mimeType := "image/png", data := some (String.mk dc) } },
        { text := some prompt } ] ∧
    analyzeContent oracle now prompt history (some s) = Except.ok
      { role := Role.model, type := MsgType.text
        content := jsOrElse r.text "Analysis complete."
        timestamp := now } := by
  have h1 : jsSplitSecond s = some (String.mk dc) := by
    unfold jsSplitSecond jsSplitComma
    rw [hsd, splitCommaChars_append pc hp dc, splitCommaChars_no_comma dc hd]
    rfl
  have ht : jsTruthy (some s) = true := by simp [jsTruthy, hs]
  refine ⟨h1, ?_, ?_, ?_⟩
  · unfold portionAfterFirstComma
    rw [hsd, dropWhile_ne_comma pc hp dc]
  · simp [analyzeParts, ht, h1]
  · unfold analyzeContent
    rw [hres]

/-- A response carrying analysis text, used to witness C8. -/
def responseC8 : GenAIResponse := { text := some "The image shows letters." }

/-- An oracle answering every request with responseC8. -/
def oracleC8 : Oracle := fun _ => Except.ok responseC8

/-- Witness for C8 at a concrete data-URI attachment: the payload forwarded
is the portion after the first comma. -/
theorem analyst_strips_data_uri_witness :
    jsSplitSecond "data:image/png;base64,QUJD" = some (String.mk "QUJD".data) ∧
    portionAfterFirstComma "data:image/png;base64,QUJD" = some (String.mk "QUJD".data) :=
  ⟨(analyst_strips_data_uri oracleC8 0 "describe this" []
      "data:image/png;base64,QUJD" "data:image/png;base64".data "QUJD".data responseC8
      (by decide) (by decide) (by decide) (by decide) rfl).1,
   (analyst_strips_data_uri oracleC8 0 "describe this" []
      "data:image/png;base64,QUJD" "data:image/png;base64".data "QUJD".data responseC8
      (by decide) (by decide) (by decide) (by decide) rfl).2.1⟩

/-- C9: The code handler's result is independent of the conversation
history: for any two histories it produces the same result, and the remote
request it issues is built from the prompt alone, so its result depends on
the oracle only at that history-free request. -/
theorem code_handler_history_independent
    (oracle o2 : Oracle) (now : Nat) (prompt : String)
    (h1 h2 : List Message)
    (hagree : o2 (codeRequest prompt) = oracle (codeRequest prompt)) :
    generateCode oracle now prompt h1 = generateCode oracle now prompt h2 ∧
    generateCode o2 now prompt h1 = generateCode oracle now prompt h2 := by
  constructor
  · rfl
  · unfold generateCode
    rw [hagree]

/-- An oracle answering every request with generated code, used for C9. -/
def oracleC9 : Oracle := fun _ => Except.ok { text := some "const x = 1;" }

/-- A nonempty history entry, used to witness C9. -/
def messageC9 : Message :=
  { id := "1", role := Role.user, content := "earlier turn"
    type := MsgType.text, timestamp := 5 }

/-- Witness for C9: empty and nonempty histories yield the same result. -/
theorem code_handler_history_independent_witness :
    generateCode oracleC9 0 "reverse a string" [] =
      generateCode oracleC9 0 "reverse a string" [messageC9] :=
  (code_handler_history_independent oracleC9 oracleC9 0 "reverse a string"
      [] [messageC9] rfl).1

/-- Every successful image-handler message has role model. -/
theorem generateImage_ok_role (oracle : Oracle) (now : Nat) (prompt : String)
    (m : ResponseMessage) (h : generateImage oracle now prompt = Except.ok m) :
    m.role = Role.model := by
  unfold generateImage at h
  cases ho : oracle (imageRequest prompt) with
  | error e => simp [ho] at h
  | ok r =>
    rw [ho] at h
    simp only [] at h
    split at h <;> (injection h with h; rw [← h])

/-- Every successful speech-handler message has role model. -/
theorem generateSpeech_ok_role (oracle : Oracle) (now : Nat) (prompt : String)
    (m : ResponseMessage) (h : generateSpeech oracle now prompt = Except.ok m) :
    m.role = Role.model := by
  unfold generateSpeech at h
  cases ho : oracle (speechRequest prompt) with
  | error e => simp [ho] at h
  | ok r =>
    rw [ho] at h
    simp only [] at h
    split at h
    · injection h with h
      rw [← h]
    · simp at h

/-- Every successful code-handler message has role model. -/
theorem generateCode_ok_role (oracle : Oracle) (now : Nat) (prompt : String)
    (history : List Message) (m : ResponseMessage)
    (h : generateCode oracle now prompt history = Except.ok m) :
    m.role = Role.model := by
  unfold generateCode at h
  cases ho : oracle (codeRequest prompt) with
  | error e => simp [ho] at h
  | ok r =>
    rw [ho] at h
    simp only [] at h
    injection h with h
    rw [← h]

/-- Every successful vision-analysis message has role model. -/
theorem analyzeContent_ok_role (oracle : Oracle) (now : Nat) (prompt : String)
    (history : List Message) (att : Option String) (m : ResponseMessage)
    (h : analyzeContent oracle now prompt history att = Except.ok m) :
    m.role = Role.model := by
  unfold analyzeContent at h
  cases ho : oracle (analyzeRequest prompt att) with
  | error e => simp [ho] at h
  | ok r =>
    rw [ho] at h
    simp only [] at h
    injection h with h
    rw [← h]

/-- Every successful orchestrator message has role model. -/
theorem runOrchestrator_ok_role (oracle : Oracle) (now : Nat) (prompt : String)
    (history : List Message) (att : Option String) (m : ResponseMessage)
    (h : runOrchestrator oracle now prompt history att = Except.ok m) :
    m.role = Role.model := by
  unfold runOrchestrator at h
  by_cases hatt : jsTruthy att = true
  · rw [if_pos hatt] at h
    exact analyzeContent_ok_role oracle now prompt history att m h
  · rw [if_neg hatt] at h
    cases ho : oracle (orchestratorRequest prompt) with
    | error e => simp [ho] at h
    | ok r =>
      rw [ho] at h
      simp only [] at h
      cases hfc : r.functionCalls with
      | none =>
        rw [hfc] at h
        simp only [] at h
        injection h with h
        rw [← h]
        rfl
      | some l =>
        cases l with
        | nil =>
          rw [hfc] at h
          simp only [] at h
          injection h with h
          rw [← h]
          rfl
        | cons call rest =>
          rw [hfc] at h
          simp only [] at h
          split at h
          · exact generateImage_ok_role oracle now call.args.prompt m h
          · split at h
            · exact generateSpeech_ok_role oracle now call.args.text m h
            · split at h
              · exact generateCode_ok_role oracle now call.args.task_description history m h
              · injection h with h
                rw [← h]
                rfl

/-- C10: generateResponse is a total function of its inputs — every failure
path resolves to a returned message (the embedding's result type carries no
thrown failure) — and every returned message has role model. -/
theorem generateResponse_always_model_role (oracle : Oracle) (now : Nat)
    (prompt : String) (mode : AgentMode) (history : List Message)
    (att : Option String) :
    (generateResponse oracle now prompt mode history att).role = Role.model := by
  unfold generateResponse handleError
  cases hd : dispatchResult oracle now prompt mode history att with
  | error e => rfl
  | ok m =>
    show m.role = Role.model
    cases mode with
    | ORCHESTRATOR => exact runOrchestrator_ok_role oracle now prompt history att m hd
    | ARTIST => exact generateImage_ok_role oracle now prompt m hd
    | SPEAKER => exact generateSpeech_ok_role oracle now prompt m hd
    | CODER => exact generateCode_ok_role oracle now prompt history m hd
    | ANALYST => exact analyzeContent_ok_role oracle now prompt history att m hd

end Nexus
